import Mathlib

set_option maxRecDepth 8000

/-!
Verification of the real-time ML-ops monitoring pipeline
(sliding-window metrics aggregator, alert manager, storage manager).

The Python sources are shallowly embedded:
* wall-clock instants are whole seconds (`Nat`); the code aligns buckets with
  `int(event_time.timestamp())`, so second granularity is faithful for bucket
  placement;
* Python `float` arithmetic is modelled with exact rationals (`ℚ`); all the
  concrete values exercised below are far from any binary-rounding boundary;
* `round(x, 2)` is modelled as `round (x * 100) / 100` (the two models agree
  away from exact half-of-hundredth ties, which never occur below);
* Python dictionaries are association lists preserving insertion order,
  matching CPython's ordered-dict semantics.
-/

namespace Monitor

/-- `EventType` enum from `components/metrics_event.py`. -/
inductive EventType where
  | apiRequest
  | apiResponse
  | apiError
  | systemHealth
deriving DecidableEq, Repr

/-- The fields of `MetricsEvent` consumed by the aggregator
(`components/metrics_event.py`); `timestamp` in whole seconds. -/
structure MetricsEvent where
  eventType : EventType
  timestamp : ℕ
  serviceName : String
  apiEndpoint : String
  statusCode : ℕ
  responseTimeMs : ℚ
deriving DecidableEq, Repr

/-- Python truthiness of an optional string: `None` and `""` are falsy. -/
def truthyStr : Option String → Bool
  | none => false
  | some s => s ≠ ""

/-- Per-key statistics held in `TimeWindow.service_stats` /
`TimeWindow.endpoint_stats` (the `defaultdict` payload). -/
structure ScopeStat where
  requestCount : ℕ
  errorCount : ℕ
  totalResponseTime : ℚ
  responseTimes : List ℚ
deriving DecidableEq, Repr

/-- The `defaultdict` default entry. -/
def ScopeStat.empty : ScopeStat :=
  { requestCount := 0, errorCount := 0, totalResponseTime := 0, responseTimes := [] }

/-- Association-list lookup (Python `dict.__getitem__` on string keys). -/
def lookupKey {α : Type} (k : String) : List (String × α) → Option α
  | [] => none
  | (k', v) :: rest => if k' = k then some v else lookupKey k rest

/-- `defaultdict` update: modify the entry at `k` (inserting the default on a
missing key, at the end, as CPython does). -/
def updateAssoc {α : Type} (dflt : α) (k : String) (f : α → α) :
    List (String × α) → List (String × α)
  | [] => [(k, f dflt)]
  | (k', v) :: rest =>
    if k' = k then (k', f v) :: rest else (k', v) :: updateAssoc dflt k f rest

/-- Remove the entry at `k` (Python `del d[k]`). -/
def removeKey {α : Type} (k : String) (l : List (String × α)) : List (String × α) :=
  l.filter (fun p => p.1 ≠ k)

/-- `TimeWindow` from `services/metrics_aggregator.py`: one sub-window
`[window_start, window_start + duration_seconds)` with overall and per-scope
statistics (`window_end` is derived, the raw `events` list is not re-read). -/
structure TimeWindow where
  windowStart : ℕ
  durationSeconds : ℕ
  requestCount : ℕ
  errorCount : ℕ
  totalResponseTime : ℚ
  responseTimes : List ℚ
  serviceStats : List (String × ScopeStat)
  endpointStats : List (String × ScopeStat)
deriving DecidableEq, Repr

/-- `TimeWindow.__init__`. -/
def TimeWindow.new (windowStart durationSeconds : ℕ) : TimeWindow :=
  { windowStart := windowStart, durationSeconds := durationSeconds,
    requestCount := 0, errorCount := 0, totalResponseTime := 0,
    responseTimes := [], serviceStats := [], endpointStats := [] }

/-- `window_end = window_start + duration_seconds`. -/
def TimeWindow.windowEnd (w : TimeWindow) : ℕ := w.windowStart + w.durationSeconds

/-- `if event.status_code and event.status_code >= 400` — Python truthiness of
the int (`0` falsy) conjoined with the comparison. -/
def isErrorStatus (statusCode : ℕ) : Bool := statusCode ≠ 0 && 400 ≤ statusCode

/-- `if event.response_time_ms` — Python float truthiness: only `0.0` is falsy
(negative values are truthy and therefore *included* in latency math). -/
def truthyLatency (rt : ℚ) : Bool := rt ≠ 0

/-- Update one `ScopeStat` for an accepted event, mirroring the three
per-scope statements of `TimeWindow.add_event`. -/
def ScopeStat.addEvent (e : MetricsEvent) (s : ScopeStat) : ScopeStat :=
  { requestCount := s.requestCount + 1,
    errorCount := s.errorCount + (if isErrorStatus e.statusCode then 1 else 0),
    totalResponseTime :=
      s.totalResponseTime + (if truthyLatency e.responseTimeMs then e.responseTimeMs else 0),
    responseTimes :=
      if truthyLatency e.responseTimeMs then s.responseTimes ++ [e.responseTimeMs]
      else s.responseTimes }

/-- `TimeWindow.add_event`: returns the updated window and the `bool` result
(`False` when the event timestamp falls outside `[window_start, window_end)`).
The per-service map is touched only when `event.service_name` is truthy, the
per-endpoint map only when `event.api_endpoint` is truthy, keyed by
`f"{service_name}:{api_endpoint}"`. -/
def TimeWindow.addEvent (w : TimeWindow) (e : MetricsEvent) : TimeWindow × Bool :=
  if ¬ (w.windowStart ≤ e.timestamp ∧ e.timestamp < w.windowEnd) then (w, false)
  else
    let w1 : TimeWindow :=
      { w with
        requestCount := w.requestCount + 1,
        errorCount := w.errorCount + (if isErrorStatus e.statusCode then 1 else 0),
        totalResponseTime :=
          w.totalResponseTime + (if truthyLatency e.responseTimeMs then e.responseTimeMs else 0),
        responseTimes :=
          if truthyLatency e.responseTimeMs then w.responseTimes ++ [e.responseTimeMs]
          else w.responseTimes }
    let svc := updateAssoc ScopeStat.empty e.serviceName (ScopeStat.addEvent e) w1.serviceStats
    let w2 : TimeWindow :=
      if truthyStr (some e.serviceName) then { w1 with serviceStats := svc } else w1
    let epKey := e.serviceName ++ ":" ++ e.apiEndpoint
    let ep := updateAssoc ScopeStat.empty epKey (ScopeStat.addEvent e) w2.endpointStats
    let w3 : TimeWindow :=
      if truthyStr (some e.apiEndpoint) then { w2 with endpointStats := ep } else w2
    (w3, true)

/-- Insert into an ascending-sorted list, after any equal elements. -/
def insertSorted (x : ℚ) : List ℚ → List ℚ
  | [] => [x]
  | y :: ys => if y ≤ x then y :: insertSorted x ys else x :: y :: ys

/-- Ascending sort of a latency list (`sorted(...)` in Python; insertion sort
produces the same ascending list of rationals). -/
def sortRats : List ℚ → List ℚ
  | [] => []
  | x :: xs => insertSorted x (sortRats xs)

/-- `MetricsAggregator._calculate_percentile` (identical to
`TimeWindow.get_percentile_response_time`): `k = (n-1)*(p/100)`,
`floor_k = int(k)`, `ceil_k = floor_k + 1`; clamp to the last element when
`ceil_k >= n`, otherwise linearly interpolate between the two neighbours. -/
def calculatePercentile (values : List ℚ) (percentile : ℚ) : ℚ :=
  if values = [] then 0
  else
    let sorted := sortRats values
    let n := sorted.length
    let k : ℚ := ((n : ℚ) - 1) * (percentile / 100)
    let fk : ℕ := (⌊k⌋).toNat
    let ck : ℕ := fk + 1
    if n ≤ ck then sorted.getD (n - 1) 0
    else sorted.getD fk 0 + (k - (fk : ℚ)) * (sorted.getD ck 0 - sorted.getD fk 0)

/-- Modelled from the spec's words only (for the refinement claim about
percentiles): `value = L[⌊k⌋] + (k − ⌊k⌋) × (L[⌈k⌉] − L[⌊k⌋])` on the sorted
list, zero for an empty sample. -/
def percentileSpec (values : List ℚ) (percentile : ℚ) : ℚ :=
  if values = [] then 0
  else
    let L := sortRats values
    let n := L.length
    let k : ℚ := ((n : ℚ) - 1) * (percentile / 100)
    L.getD (⌊k⌋).toNat 0 + (k - (⌊k⌋ : ℚ)) * (L.getD (⌈k⌉).toNat 0 - L.getD (⌊k⌋).toNat 0)

/-- `statistics.mean`, with the `if not values` guard of the callers. -/
def meanRats (l : List ℚ) : ℚ :=
  if l = [] then 0 else l.sum / (l.length : ℚ)

/-- Python `round(x, 2)` on exact rationals. -/
def round2 (q : ℚ) : ℚ := ((round (q * 100) : ℤ) : ℚ) / 100

/-- One scope of the emitted snapshot: the `overall` dict, one entry of
`services`, or one entry of `endpoints` in `get_current_metrics`. -/
structure ScopeMetrics where
  qps : ℚ
  errorRate : ℚ
  avgResponseTime : ℚ
  p95ResponseTime : ℚ
  p99ResponseTime : ℚ
  totalRequests : ℕ
  totalErrors : ℕ
deriving DecidableEq, Repr

/-- The dict returned by `TimeWindow.get_summary` (all values unrounded). -/
structure WindowSummary where
  windowStart : ℕ
  windowEnd : ℕ
  durationSeconds : ℕ
  requestCount : ℕ
  errorCount : ℕ
  qps : ℚ
  errorRate : ℚ
  avgResponseTime : ℚ
  p95ResponseTime : ℚ
  p99ResponseTime : ℚ
  serviceCount : ℕ
  endpointCount : ℕ
deriving DecidableEq, Repr

/-- `TimeWindow.get_qps`. -/
def TimeWindow.getQps (w : TimeWindow) : ℚ := (w.requestCount : ℚ) / (w.durationSeconds : ℚ)

/-- `TimeWindow.get_error_rate`. -/
def TimeWindow.getErrorRate (w : TimeWindow) : ℚ :=
  if w.requestCount = 0 then 0 else ((w.errorCount : ℚ) / (w.requestCount : ℚ)) * 100

/-- `TimeWindow.get_avg_response_time` (`statistics.mean` guarded by
`if not self.response_times`). -/
def TimeWindow.getAvgResponseTime (w : TimeWindow) : ℚ := meanRats w.responseTimes

/-- `TimeWindow.get_percentile_response_time` (same algorithm as
`_calculate_percentile`). -/
def TimeWindow.getPercentileResponseTime (w : TimeWindow) (p : ℚ) : ℚ :=
  calculatePercentile w.responseTimes p

/-- `TimeWindow.get_summary`. -/
def TimeWindow.getSummary (w : TimeWindow) : WindowSummary :=
  { windowStart := w.windowStart, windowEnd := w.windowEnd,
    durationSeconds := w.durationSeconds,
    requestCount := w.requestCount, errorCount := w.errorCount,
    qps := w.getQps, errorRate := w.getErrorRate,
    avgResponseTime := w.getAvgResponseTime,
    p95ResponseTime := w.getPercentileResponseTime 95,
    p99ResponseTime := w.getPercentileResponseTime 99,
    serviceCount := w.serviceStats.length, endpointCount := w.endpointStats.length }

/-- The dict returned by `MetricsAggregator.get_current_metrics` /
`_empty_metrics`; `timestamp` is the `datetime.utcnow()` read at emission. -/
structure Snapshot where
  timestamp : ℕ
  windowSizeSeconds : ℕ
  activeWindows : ℕ
  overall : ScopeMetrics
  services : List (String × ScopeMetrics)
  endpoints : List (String × ScopeMetrics)
  windowDetails : List WindowSummary
deriving DecidableEq, Repr

/-- `MetricsAggregator` state (`services/metrics_aggregator.py`):
`windows` is the `deque(maxlen=num_sub_windows)` of sealed sub-windows,
`current_window` the still-open one. -/
structure MetricsAggregator where
  windowSizeSeconds : ℕ
  subWindowSeconds : ℕ
  numSubWindows : ℕ
  windows : List TimeWindow
  currentWindow : Option TimeWindow
  lastWindowStart : Option ℕ
  totalEventsProcessed : ℕ
deriving DecidableEq, Repr

/-- `MetricsAggregator.__init__`: `num_sub_windows = window_size // sub_window`. -/
def MetricsAggregator.init (windowSizeSeconds subWindowSeconds : ℕ) : MetricsAggregator :=
  { windowSizeSeconds := windowSizeSeconds, subWindowSeconds := subWindowSeconds,
    numSubWindows := windowSizeSeconds / subWindowSeconds,
    windows := [], currentWindow := none, lastWindowStart := none,
    totalEventsProcessed := 0 }

/-- `deque.append` with `maxlen`: when full, the oldest (leftmost) entry is
discarded. -/
def dequeAppend (maxlen : ℕ) (l : List TimeWindow) (w : TimeWindow) : List TimeWindow :=
  let l' := l ++ [w]
  if maxlen < l'.length then l'.drop (l'.length - maxlen) else l'

/-- `MetricsAggregator._get_window_start_time`: align down to a multiple of
`sub_window_seconds` (`(timestamp // sub) * sub`). -/
def MetricsAggregator.getWindowStartTime (agg : MetricsAggregator) (eventTime : ℕ) : ℕ :=
  (eventTime / agg.subWindowSeconds) * agg.subWindowSeconds

/-- `MetricsAggregator._ensure_current_window`: when the aligned start differs
from the current window's start (or there is no current window), the current
window is pushed onto the deque and a fresh one is opened — the aligned start
is *not* compared against existing windows, so an older start also opens a
fresh window. -/
def MetricsAggregator.ensureCurrentWindow (agg : MetricsAggregator) (eventTime : ℕ) :
    MetricsAggregator :=
  let ws := agg.getWindowStartTime eventTime
  let mismatch := match agg.currentWindow with
    | none => true
    | some cw => cw.windowStart ≠ ws
  if mismatch then
    let windows' := match agg.currentWindow with
      | some cw => dequeAppend agg.numSubWindows agg.windows cw
      | none => agg.windows
    { agg with windows := windows',
               currentWindow := some (TimeWindow.new ws agg.subWindowSeconds),
               lastWindowStart := some ws }
  else agg

/-- `MetricsAggregator.add_event`: only `api_response` events are processed;
the event is handed to the (ensured) current window and counted on success. -/
def MetricsAggregator.addEvent (agg : MetricsAggregator) (e : MetricsEvent) :
    MetricsAggregator :=
  if e.eventType ≠ EventType.apiResponse then agg
  else
    let agg1 := agg.ensureCurrentWindow e.timestamp
    match agg1.currentWindow with
    | none => agg1
    | some cw =>
      let r := cw.addEvent e
      if r.2 then
        { agg1 with currentWindow := some r.1,
                    totalEventsProcessed := agg1.totalEventsProcessed + 1 }
      else agg1

/-- `list(self.windows) + [self.current_window]`: the live sub-windows read by
`get_current_metrics`. -/
def MetricsAggregator.allWindows (agg : MetricsAggregator) : List TimeWindow :=
  agg.windows ++ agg.currentWindow.toList

/-- `MetricsAggregator._empty_metrics`. -/
def MetricsAggregator.emptyMetrics (agg : MetricsAggregator) (now : ℕ) : Snapshot :=
  { timestamp := now, windowSizeSeconds := agg.windowSizeSeconds, activeWindows := 0,
    overall := { qps := 0, errorRate := 0, avgResponseTime := 0,
                 p95ResponseTime := 0, p99ResponseTime := 0,
                 totalRequests := 0, totalErrors := 0 },
    services := [], endpoints := [], windowDetails := [] }

/-- Merge the per-scope stats of all live windows, as the `defaultdict`
accumulation loops of `_aggregate_service_metrics` / `_aggregate_endpoint_metrics`
do (keys in order of first appearance). -/
def mergeScopeStats (perWindow : List (List (String × ScopeStat))) :
    List (String × ScopeStat) :=
  perWindow.foldl
    (fun acc stats =>
      stats.foldl
        (fun acc2 p =>
          updateAssoc ScopeStat.empty p.1
            (fun s => { requestCount := s.requestCount + p.2.requestCount,
                        errorCount := s.errorCount + p.2.errorCount,
                        totalResponseTime := s.totalResponseTime,
                        responseTimes := s.responseTimes ++ p.2.responseTimes }) acc2)
        acc)
    []

/-- The per-key metric computation shared by `_aggregate_service_metrics` and
`_aggregate_endpoint_metrics`. -/
def scopeMetricsOf (windowSizeSeconds : ℕ) (s : ScopeStat) : ScopeMetrics :=
  { qps := round2 ((s.requestCount : ℚ) / (windowSizeSeconds : ℚ)),
    errorRate := round2 (if s.requestCount = 0 then 0
      else ((s.errorCount : ℚ) / (s.requestCount : ℚ)) * 100),
    avgResponseTime := round2 (meanRats s.responseTimes),
    p95ResponseTime := round2 (calculatePercentile s.responseTimes 95),
    p99ResponseTime := round2 (calculatePercentile s.responseTimes 99),
    totalRequests := s.requestCount, totalErrors := s.errorCount }

/-- `MetricsAggregator._aggregate_service_metrics` over the live windows. -/
def MetricsAggregator.aggregateServiceMetrics (agg : MetricsAggregator)
    (windows : List TimeWindow) : List (String × ScopeMetrics) :=
  (mergeScopeStats (windows.map TimeWindow.serviceStats)).map
    (fun p => (p.1, scopeMetricsOf agg.windowSizeSeconds p.2))

/-- `MetricsAggregator._aggregate_endpoint_metrics` over the live windows. -/
def MetricsAggregator.aggregateEndpointMetrics (agg : MetricsAggregator)
    (windows : List TimeWindow) : List (String × ScopeMetrics) :=
  (mergeScopeStats (windows.map TimeWindow.endpointStats)).map
    (fun p => (p.1, scopeMetricsOf agg.windowSizeSeconds p.2))

/-- `MetricsAggregator.get_current_metrics` (the `snapshot()` operation):
aggregates counts and the concatenated latency samples over all live windows;
`now` stands for the `datetime.utcnow()` read into the `timestamp` field. -/
def MetricsAggregator.getCurrentMetrics (agg : MetricsAggregator) (now : ℕ) : Snapshot :=
  let allW := agg.allWindows
  if allW = [] then agg.emptyMetrics now
  else
    let totalRequests := (allW.map TimeWindow.requestCount).sum
    let totalErrors := (allW.map TimeWindow.errorCount).sum
    let allResponseTimes := (allW.map TimeWindow.responseTimes).flatten
    let overallQps : ℚ := (totalRequests : ℚ) / (agg.windowSizeSeconds : ℚ)
    let overallErrorRate : ℚ :=
      if 0 < totalRequests then ((totalErrors : ℚ) / (totalRequests : ℚ)) * 100 else 0
    { timestamp := now,
      windowSizeSeconds := agg.windowSizeSeconds,
      activeWindows := allW.length,
      overall := { qps := round2 overallQps,
                   errorRate := round2 overallErrorRate,
                   avgResponseTime := round2 (meanRats allResponseTimes),
                   p95ResponseTime := round2 (calculatePercentile allResponseTimes 95),
                   p99ResponseTime := round2 (calculatePercentile allResponseTimes 99),
                   totalRequests := totalRequests, totalErrors := totalErrors },
      services := agg.aggregateServiceMetrics allW,
      endpoints := agg.aggregateEndpointMetrics allW,
      windowDetails := (allW.drop (allW.length - 5)).map TimeWindow.getSummary }

/-! ### Alert manager (`services/alert_manager.py`) -/

/-- `AlertSeverity` enum. -/
inductive AlertSeverity where
  | low
  | medium
  | high
  | critical
deriving DecidableEq, Repr, Inhabited

/-- `AlertStatus` enum. -/
inductive AlertStatus where
  | triggered
  | resolved
  | acknowledged
deriving DecidableEq, Repr

/-- `AlertRule` dataclass (`created_at` is presentation-only and omitted). -/
structure AlertRule where
  id : String
  name : String
  metricType : String
  operator : String
  threshold : ℚ
  severity : AlertSeverity
  serviceName : Option String
  endpoint : Option String
  durationSeconds : ℕ
  enabled : Bool
deriving DecidableEq, Repr, Inhabited

/-- `Alert` dataclass; `triggered_at` etc. in whole seconds. The generated
human-readable `message` string is presentation-only and omitted. -/
structure Alert where
  id : String
  ruleId : String
  ruleName : String
  severity : AlertSeverity
  status : AlertStatus
  metricValue : ℚ
  threshold : ℚ
  serviceName : Option String
  endpoint : Option String
  triggeredAt : ℕ
  resolvedAt : Option ℕ
  acknowledgedAt : Option ℕ
deriving DecidableEq, Repr

/-- The `AlertManager` state the claims touch: the rule dict (insertion
order), the `active_alerts` dict, the bounded `alert_history`, the counters,
and the stream of alerts handed to the registered callbacks (each callback is
invoked once per entry of `notifications`, in order). -/
structure AlertManagerState where
  alertRules : List AlertRule
  activeAlerts : List (String × Alert)
  alertHistory : List Alert
  totalAlertsTriggered : ℕ
  totalAlertsResolved : ℕ
  notifications : List Alert
deriving DecidableEq, Repr

/-- `max_history_size = 1000`. -/
def maxHistorySize : ℕ := 1000

/-- `AlertManager._setup_default_rules` (dict insertion order). -/
def defaultRules : List AlertRule :=
  [ { id := "high_error_rate", name := "high error rate", metricType := "error_rate",
      operator := ">", threshold := 5, severity := .high,
      serviceName := none, endpoint := none, durationSeconds := 60, enabled := true },
    { id := "critical_error_rate", name := "critical error rate", metricType := "error_rate",
      operator := ">", threshold := 10, severity := .critical,
      serviceName := none, endpoint := none, durationSeconds := 30, enabled := true },
    { id := "high_response_time", name := "high response time", metricType := "p95_response_time",
      operator := ">", threshold := 1000, severity := .medium,
      serviceName := none, endpoint := none, durationSeconds := 120, enabled := true },
    { id := "critical_response_time", name := "critical response time",
      metricType := "p99_response_time",
      operator := ">", threshold := 5000, severity := .critical,
      serviceName := none, endpoint := none, durationSeconds := 60, enabled := true },
    { id := "low_qps", name := "low qps", metricType := "qps",
      operator := "<", threshold := 1, severity := .low,
      serviceName := none, endpoint := none, durationSeconds := 300, enabled := true } ]

/-- `AlertManager.__init__` (with the default rules installed). -/
def AlertManagerState.init : AlertManagerState :=
  { alertRules := defaultRules, activeAlerts := [], alertHistory := [],
    totalAlertsTriggered := 0, totalAlertsResolved := 0, notifications := [] }

/-- `metrics.get(rule.metric_type)` on a snapshot scope dict: the five metric
keys plus the two counters are present; any other name yields `None`. -/
def metricValue (m : ScopeMetrics) : String → Option ℚ
  | "qps" => some m.qps
  | "error_rate" => some m.errorRate
  | "avg_response_time" => some m.avgResponseTime
  | "p95_response_time" => some m.p95ResponseTime
  | "p99_response_time" => some m.p99ResponseTime
  | "total_requests" => some (m.totalRequests : ℚ)
  | "total_errors" => some (m.totalErrors : ℚ)
  | _ => none

/-- `AlertManager._evaluate_condition`; `==` is the `abs(value - threshold)
< 0.001` float comparison; an unknown operator logs and returns `False`. -/
def evaluateCondition (value : ℚ) (operator : String) (threshold : ℚ) : Bool :=
  if operator = ">" then value > threshold
  else if operator = "<" then value < threshold
  else if operator = ">=" then value ≥ threshold
  else if operator = "<=" then value ≤ threshold
  else if operator = "==" then |value - threshold| < 1 / 1000
  else false

/-- `AlertManager._generate_alert_id`: `":".join(parts)` where a falsy (absent
or empty) scope component is skipped; since `rule.id` is always the first
part, the join is the progressive colon-separated append. -/
def generateAlertId (rule : AlertRule) (serviceName endpoint : Option String) : String :=
  let s1 := rule.id
  let s2 := if truthyStr serviceName then s1 ++ ":" ++ serviceName.getD "" else s1
  if truthyStr endpoint then s2 ++ ":" ++ endpoint.getD "" else s2

/-- `AlertManager._trigger_alert`: store in the active map, append to the
history (trimmed to the most recent `max_history_size`), bump the counter and
notify every callback. -/
def AlertManagerState.triggerAlert (st : AlertManagerState) (alert : Alert) :
    AlertManagerState :=
  let history := st.alertHistory ++ [alert]
  let history := if maxHistorySize < history.length
    then history.drop (history.length - maxHistorySize) else history
  { st with activeAlerts := st.activeAlerts ++ [(alert.id, alert)],
            alertHistory := history,
            totalAlertsTriggered := st.totalAlertsTriggered + 1,
            notifications := st.notifications ++ [alert] }

/-- `AlertManager._resolve_alert`: mark resolved, stamp `resolved_at`, delete
from the active map, bump the counter and notify every callback. -/
def AlertManagerState.resolveAlert (st : AlertManagerState) (alertId : String) (now : ℕ) :
    AlertManagerState :=
  match lookupKey alertId st.activeAlerts with
  | none => st
  | some alert =>
    let alert' := { alert with status := AlertStatus.resolved, resolvedAt := some now }
    { st with activeAlerts := removeKey alertId st.activeAlerts,
              totalAlertsResolved := st.totalAlertsResolved + 1,
              notifications := st.notifications ++ [alert'] }

/-- `AlertManager._evaluate_rule` for one rule against one scope dict. -/
def AlertManagerState.evaluateRule (st : AlertManagerState) (rule : AlertRule)
    (metrics : ScopeMetrics) (serviceName endpoint : Option String) (now : ℕ) :
    AlertManagerState :=
  match metricValue metrics rule.metricType with
  | none => st
  | some value =>
    let conditionMet := evaluateCondition value rule.operator rule.threshold
    let alertId := generateAlertId rule serviceName endpoint
    if conditionMet then
      if (lookupKey alertId st.activeAlerts).isNone then
        st.triggerAlert
          { id := alertId, ruleId := rule.id, ruleName := rule.name,
            severity := rule.severity, status := AlertStatus.triggered,
            metricValue := value, threshold := rule.threshold,
            serviceName := serviceName, endpoint := endpoint,
            triggeredAt := now, resolvedAt := none, acknowledgedAt := none }
      else st
    else
      if (lookupKey alertId st.activeAlerts).isSome then st.resolveAlert alertId now
      else st

/-- `AlertManager._check_overall_metrics`: a rule is skipped when disabled or
carrying a truthy `service_name` or `endpoint`. -/
def AlertManagerState.checkOverallMetrics (st : AlertManagerState)
    (overall : ScopeMetrics) (now : ℕ) : AlertManagerState :=
  st.alertRules.foldl
    (fun acc rule =>
      if !rule.enabled || truthyStr rule.serviceName || truthyStr rule.endpoint then acc
      else acc.evaluateRule rule overall none none now)
    st

/-- `AlertManager._check_service_metrics` for one `services` entry: a rule is
skipped when disabled, scoped to a *different* service, or endpoint-scoped —
a rule with no scope is evaluated here too. -/
def AlertManagerState.checkServiceMetrics (st : AlertManagerState)
    (serviceName : String) (metrics : ScopeMetrics) (now : ℕ) : AlertManagerState :=
  st.alertRules.foldl
    (fun acc rule =>
      if !rule.enabled
          || (truthyStr rule.serviceName && rule.serviceName ≠ some serviceName)
          || truthyStr rule.endpoint then acc
      else acc.evaluateRule rule metrics (some serviceName) none now)
    st

/-- Split a character list at its first colon (accumulator-style). -/
def splitCharsAtColon (acc : List Char) : List Char → Option (List Char × List Char)
  | [] => none
  | c :: cs => if c = ':' then some (acc.reverse, cs) else splitCharsAtColon (c :: acc) cs

/-- `endpoint_key.split(":", 1)` when the key contains a colon, else
`(None, endpoint_key)`. -/
def parseEndpointKey (key : String) : Option String × String :=
  match splitCharsAtColon [] key.data with
  | none => (none, key)
  | some (a, b) => (some (String.mk a), String.mk b)

/-- `AlertManager._check_endpoint_metrics` for one `endpoints` entry. -/
def AlertManagerState.checkEndpointMetrics (st : AlertManagerState)
    (endpointKey : String) (metrics : ScopeMetrics) (now : ℕ) : AlertManagerState :=
  let p := parseEndpointKey endpointKey
  st.alertRules.foldl
    (fun acc rule =>
      if !rule.enabled
          || (truthyStr rule.serviceName && rule.serviceName ≠ p.1)
          || (truthyStr rule.endpoint && rule.endpoint ≠ some p.2) then acc
      else acc.evaluateRule rule metrics p.1 (some p.2) now)
    st

/-- `AlertManager.check_metrics`: overall first, then every service entry,
then every endpoint entry (the bookkeeping counters `rule_checks_performed`
and `last_check_time` are not modelled). -/
def AlertManagerState.checkMetrics (st : AlertManagerState) (snap : Snapshot) (now : ℕ) :
    AlertManagerState :=
  let st1 := st.checkOverallMetrics snap.overall now
  let st2 := snap.services.foldl
    (fun acc p => acc.checkServiceMetrics p.1 p.2 now) st1
  snap.endpoints.foldl
    (fun acc p => acc.checkEndpointMetrics p.1 p.2 now) st2

/-- `AlertManager.acknowledge_alert` (mutates in place, stays in the active
map): returns the new state and the `bool` result. -/
def AlertManagerState.acknowledgeAlert (st : AlertManagerState) (alertId : String) (now : ℕ) :
    AlertManagerState × Bool :=
  match lookupKey alertId st.activeAlerts with
  | none => (st, false)
  | some alert =>
    let alert' := { alert with status := AlertStatus.acknowledged, acknowledgedAt := some now }
    ({ st with activeAlerts :=
        st.activeAlerts.map (fun p => if p.1 = alertId then (p.1, alert') else p) }, true)

/-! ### Storage manager (`services/storage_manager.py`) -/

/-- The statistics dict of `StorageManager` (time-valued entries in whole
seconds). -/
structure StorageStats where
  totalPostgresWrites : ℕ
  totalRedisWrites : ℕ
  batchWrites : ℕ
  failedWrites : ℕ
  lastWriteTime : Option ℕ
deriving DecidableEq, Repr

/-- The `StorageManager` state touched by batch writes: the pending-rows
buffer (rows kept abstract — one entry per flattened metric record), the
last-flush instant and the counters. -/
structure StorageState where
  pendingMetrics : List ℕ
  lastBatchTime : ℕ
  stats : StorageStats
deriving DecidableEq, Repr

/-- `StorageManager._execute_batch_write`, with the success of the
`executemany` insert supplied as `insertOk` (the `try` block): an empty buffer
returns immediately; on success the write counters are updated and the buffer
cleared; on failure (`except`) the error is logged, `failed_writes` is
incremented, and the buffer is cleared all the same so the rows are never
retried. Both branches reset `last_batch_time`; the function is total, so no
exception escapes to the caller. -/
def StorageState.executeBatchWrite (st : StorageState) (insertOk : Bool) (now : ℕ) :
    StorageState :=
  if st.pendingMetrics = [] then st
  else if insertOk then
    { st with
      stats := { st.stats with
        totalPostgresWrites := st.stats.totalPostgresWrites + st.pendingMetrics.length,
        batchWrites := st.stats.batchWrites + 1,
        lastWriteTime := some now },
      pendingMetrics := [],
      lastBatchTime := now }
  else
    { st with
      stats := { st.stats with failedWrites := st.stats.failedWrites + 1 },
      pendingMetrics := [],
      lastBatchTime := now }

/-! ### Concrete scenario inputs -/

/-- A healthy request observed at `t = 0` (`response_time_ms = 100`). -/
def evWarm : MetricsEvent :=
  { eventType := .apiResponse, timestamp := 0, serviceName := "model-service",
    apiEndpoint := "/predict", statusCode := 200, responseTimeMs := 100 }

/-- The late request of the window-eviction scenario (`t = 65 s`,
`response_time_ms = 200`). -/
def evLate : MetricsEvent :=
  { eventType := .apiResponse, timestamp := 65, serviceName := "model-service",
    apiEndpoint := "/predict", statusCode := 200, responseTimeMs := 200 }

/-- Window-eviction scenario: 50 events at `t = 0`, then one at `t = 65 s`,
on a 60 s window of 5 s sub-windows. -/
def aggEvict : MetricsAggregator :=
  ((List.replicate 50 evWarm).foldl MetricsAggregator.addEvent
    (MetricsAggregator.init 60 5)).addEvent evLate

/-- An event at `t = 10`. -/
def evTen : MetricsEvent := { evWarm with timestamp := 10 }

/-- An out-of-order event at `t = 3`, older than the bucket opened for
`evTen`. -/
def evEarly : MetricsEvent := { evWarm with timestamp := 3 }

/-- Out-of-order scenario: an event at `t = 10` followed by one at `t = 3`. -/
def aggOutOfOrder : MetricsAggregator :=
  ((MetricsAggregator.init 60 5).addEvent evTen).addEvent evEarly

/-- The scope metrics of the mixed-errors scenario: 100 requests over a 60 s
window, 5 errors, all latencies 100 ms (`error_rate = 5.00`, `qps = 1.67`). -/
def mixedScope : ScopeMetrics :=
  { qps := Rat.mk' 167 100, errorRate := 5, avgResponseTime := 100,
    p95ResponseTime := 100, p99ResponseTime := 100,
    totalRequests := 100, totalErrors := 5 }

/-- The mixed-errors snapshot, with its service and endpoint entries. -/
def mixedSnapshot : Snapshot :=
  { timestamp := 0, windowSizeSeconds := 60, activeWindows := 1,
    overall := mixedScope,
    services := [("model-service", mixedScope)],
    endpoints := [("model-service:/predict", mixedScope)],
    windowDetails := [] }

/-- A quiet overall scope (`error_rate = 2`), below every default threshold. -/
def quietScope : ScopeMetrics :=
  { qps := 2, errorRate := 2, avgResponseTime := 100,
    p95ResponseTime := 100, p99ResponseTime := 100,
    totalRequests := 120, totalErrors := 2 }

/-- A service scope with `error_rate = 7`, above the `high_error_rate`
threshold. -/
def hotScope : ScopeMetrics :=
  { qps := 2, errorRate := 7, avgResponseTime := 100,
    p95ResponseTime := 100, p99ResponseTime := 100,
    totalRequests := 120, totalErrors := 8 }

/-- A snapshot whose overall scope is quiet but whose single service entry
exceeds the error-rate threshold. -/
def svcSnapshot : Snapshot :=
  { timestamp := 0, windowSizeSeconds := 60, activeWindows := 1,
    overall := quietScope, services := [("svcA", hotScope)],
    endpoints := [], windowDetails := [] }

/-- The mixed-errors scope with 6 errors instead of 5 (`error_rate = 6.00`,
strictly above the threshold). -/
def mixedScope6 : ScopeMetrics :=
  { qps := Rat.mk' 167 100, errorRate := 6, avgResponseTime := 100,
    p95ResponseTime := 100, p99ResponseTime := 100,
    totalRequests := 100, totalErrors := 6 }

/-- The 6-error mixed snapshot with service and endpoint entries. -/
def mixedSnapshot6 : Snapshot :=
  { timestamp := 0, windowSizeSeconds := 60, activeWindows := 1,
    overall := mixedScope6,
    services := [("model-service", mixedScope6)],
    endpoints := [("model-service:/predict", mixedScope6)],
    windowDetails := [] }

/-- The 6-error snapshot restricted to its overall scope (no service or
endpoint entries). -/
def overallOnlySnapshot6 : Snapshot :=
  { timestamp := 0, windowSizeSeconds := 60, activeWindows := 1,
    overall := mixedScope6, services := [], endpoints := [],
    windowDetails := [] }

/-- A triggered alert for the default `high_error_rate` rule with overall
identity, used to exercise resolution. -/
def sampleActiveAlert : Alert :=
  { id := "high_error_rate", ruleId := "high_error_rate", ruleName := "high error rate",
    severity := .high, status := .triggered, metricValue := 8, threshold := 5,
    serviceName := none, endpoint := none, triggeredAt := 3,
    resolvedAt := none, acknowledgedAt := none }

/-- An alert-manager state holding `sampleActiveAlert` in its active map. -/
def stWithActive : AlertManagerState :=
  { AlertManagerState.init with activeAlerts := [("high_error_rate", sampleActiveAlert)] }

/-- An accepted event whose `response_time_ms` is exactly `0`. -/
def evZeroRt : MetricsEvent :=
  { eventType := .apiResponse, timestamp := 1, serviceName := "s",
    apiEndpoint := "/e", statusCode := 500, responseTimeMs := 0 }

/-- An accepted event with a negative `response_time_ms`. -/
def evNegRt : MetricsEvent :=
  { eventType := .apiResponse, timestamp := 1, serviceName := "s",
    apiEndpoint := "/e", statusCode := 200, responseTimeMs := -5 }

end Monitor

/-! ## Theorems -/

namespace Monitor

/-- `errorCount` never exceeds `requestCount` in a window. -/
def WindowCountInv (w : TimeWindow) : Prop := w.errorCount ≤ w.requestCount

theorem windowCountInv_new (ws d : ℕ) : WindowCountInv (TimeWindow.new ws d) :=
  Nat.le_refl 0

/-- The overall-count behaviour of `TimeWindow.add_event` on an in-range
event; the per-scope branches do not touch these fields. -/
theorem TimeWindow.addEvent_accepted (w : TimeWindow) (e : MetricsEvent)
    (hin : w.windowStart ≤ e.timestamp ∧ e.timestamp < w.windowEnd) :
    (w.addEvent e).2 = true ∧
    (w.addEvent e).1.requestCount = w.requestCount + 1 ∧
    (w.addEvent e).1.errorCount
      = w.errorCount + (if isErrorStatus e.statusCode then 1 else 0) ∧
    (w.addEvent e).1.totalResponseTime
      = w.totalResponseTime + (if truthyLatency e.responseTimeMs then e.responseTimeMs else 0) ∧
    (w.addEvent e).1.responseTimes
      = (if truthyLatency e.responseTimeMs
          then w.responseTimes ++ [e.responseTimeMs] else w.responseTimes) ∧
    (w.addEvent e).1.windowStart = w.windowStart ∧
    (w.addEvent e).1.durationSeconds = w.durationSeconds := by
  unfold TimeWindow.addEvent
  simp only [hin, and_true, not_true_eq_false, if_false, ite_false, ite_true, not_true]
  split <;> split <;> simp

/-- `TimeWindow.add_event` returns `False` and leaves the window unchanged on
an out-of-range event. -/
theorem TimeWindow.addEvent_rejected (w : TimeWindow) (e : MetricsEvent)
    (hout : ¬ (w.windowStart ≤ e.timestamp ∧ e.timestamp < w.windowEnd)) :
    w.addEvent e = (w, false) := by
  unfold TimeWindow.addEvent
  simp [hout]

theorem windowCountInv_addEvent (w : TimeWindow) (e : MetricsEvent)
    (h : WindowCountInv w) : WindowCountInv (w.addEvent e).1 := by
  by_cases hin : w.windowStart ≤ e.timestamp ∧ e.timestamp < w.windowEnd
  · obtain ⟨-, hreq, herr, -⟩ := TimeWindow.addEvent_accepted w e hin
    unfold WindowCountInv at h ⊢
    rw [hreq, herr]
    split <;> omega
  · rw [TimeWindow.addEvent_rejected w e hin]
    exact h

/-- All live windows of an aggregator satisfy the count invariant. -/
def AggCountInv (agg : MetricsAggregator) : Prop :=
  ∀ w ∈ agg.allWindows, WindowCountInv w

theorem aggCountInv_init (ws s : ℕ) : AggCountInv (MetricsAggregator.init ws s) := by
  intro w hw
  simp [MetricsAggregator.init, MetricsAggregator.allWindows] at hw

theorem mem_dequeAppend {m : ℕ} {l : List TimeWindow} {w x : TimeWindow}
    (h : x ∈ dequeAppend m l w) : x ∈ l ++ [w] := by
  simp only [dequeAppend] at h
  split at h
  · exact List.drop_subset _ _ h
  · exact h

theorem mem_allWindows_ensureCurrentWindow (agg : MetricsAggregator) (t : ℕ)
    (w : TimeWindow) (hw : w ∈ (agg.ensureCurrentWindow t).allWindows) :
    w ∈ agg.allWindows ∨ w = TimeWindow.new (agg.getWindowStartTime t) agg.subWindowSeconds := by
  rcases hcw : agg.currentWindow with - | cw
  · simp only [MetricsAggregator.ensureCurrentWindow, hcw] at hw
    simp [MetricsAggregator.allWindows, hcw] at hw ⊢
    tauto
  · simp only [MetricsAggregator.ensureCurrentWindow, hcw] at hw
    by_cases hmis : cw.windowStart = agg.getWindowStartTime t
    · simp [hmis, MetricsAggregator.allWindows, hcw] at hw ⊢
      tauto
    · simp [hmis, MetricsAggregator.allWindows, hcw] at hw ⊢
      rcases hw with hw | rfl
      · rcases List.mem_append.mp (mem_dequeAppend hw) with h' | h'
        · tauto
        · simp at h'
          tauto
      · tauto

theorem aggCountInv_ensureCurrentWindow (agg : MetricsAggregator) (t : ℕ)
    (h : AggCountInv agg) : AggCountInv (agg.ensureCurrentWindow t) := by
  intro w hw
  rcases mem_allWindows_ensureCurrentWindow agg t w hw with h' | rfl
  · exact h w h'
  · exact windowCountInv_new _ _

theorem currentWindow_mem_allWindows (agg : MetricsAggregator) (cw : TimeWindow)
    (hcw : agg.currentWindow = some cw) : cw ∈ agg.allWindows := by
  simp [MetricsAggregator.allWindows, hcw]

theorem aggCountInv_addEvent (agg : MetricsAggregator) (e : MetricsEvent)
    (h : AggCountInv agg) : AggCountInv (agg.addEvent e) := by
  unfold MetricsAggregator.addEvent
  split
  · exact h
  · have h1 := aggCountInv_ensureCurrentWindow agg e.timestamp h
    rcases hcw : (agg.ensureCurrentWindow e.timestamp).currentWindow with - | cw
    · simpa [hcw] using h1
    · simp only [hcw]
      split
      · intro w hw
        simp only [MetricsAggregator.allWindows, List.mem_append, Option.toList_some,
          List.mem_singleton] at hw
        rcases hw with hw | rfl
        · exact h1 w (by simp [MetricsAggregator.allWindows, hw])
        · exact windowCountInv_addEvent cw e (h1 cw (currentWindow_mem_allWindows _ cw hcw))
      · exact h1

theorem aggCountInv_foldl (events : List MetricsEvent) (agg : MetricsAggregator)
    (h : AggCountInv agg) :
    AggCountInv (events.foldl MetricsAggregator.addEvent agg) := by
  induction events generalizing agg with
  | nil => exact h
  | cons e es ih => exact ih _ (aggCountInv_addEvent agg e h)

theorem round2_zero : round2 0 = 0 := by
  unfold round2
  norm_num

theorem round2_le_round2 {a b : ℚ} (h : a ≤ b) : round2 a ≤ round2 b := by
  have h1 : round (a * 100) ≤ round (b * 100) := by
    rw [round_eq, round_eq]
    exact Int.floor_le_floor (by linarith)
  have h2 : ((round (a * 100) : ℤ) : ℚ) ≤ ((round (b * 100) : ℤ) : ℚ) := by
    exact_mod_cast h1
  unfold round2
  linarith

theorem round2_hundred : round2 100 = 100 := by
  unfold round2
  rw [show ((100 : ℚ) * 100) = ((10000 : ℤ) : ℚ) by norm_num, round_intCast]
  norm_num

/-- C5: for every snapshot the aggregator produces (any event sequence folded
into a fresh aggregator), `overall.error_rate` is the rounded
`100 × total_errors / total_requests` (zero when `total_requests = 0`), and it
lies within `[0, 100]` because an event increments the error count only if it
also increments the request count. -/
theorem C5_snapshot_error_rate (events : List MetricsEvent) (ws s now : ℕ) :
    let agg := events.foldl MetricsAggregator.addEvent (MetricsAggregator.init ws s)
    let snap := agg.getCurrentMetrics now
    snap.overall.totalErrors ≤ snap.overall.totalRequests ∧
    snap.overall.errorRate =
      round2 (if 0 < snap.overall.totalRequests
        then ((snap.overall.totalErrors : ℚ) / (snap.overall.totalRequests : ℚ)) * 100
        else 0) ∧
    0 ≤ snap.overall.errorRate ∧ snap.overall.errorRate ≤ 100 := by
  intro agg snap
  have hinv : AggCountInv agg := aggCountInv_foldl events _ (aggCountInv_init ws s)
  by_cases hall : agg.allWindows = []
  · have hsnap : snap = agg.emptyMetrics now := by
      simp only [snap, MetricsAggregator.getCurrentMetrics, hall, ite_true, if_true, reduceIte]
    rw [hsnap]
    refine ⟨Nat.le_refl 0, ?_, le_refl 0, by norm_num [MetricsAggregator.emptyMetrics]⟩
    simp [MetricsAggregator.emptyMetrics, round2_zero]
  · have hte : snap.overall.totalErrors = (agg.allWindows.map TimeWindow.errorCount).sum := by
      simp only [snap, MetricsAggregator.getCurrentMetrics, hall, ite_false, if_false, reduceIte]
    have htr : snap.overall.totalRequests
        = (agg.allWindows.map TimeWindow.requestCount).sum := by
      simp only [snap, MetricsAggregator.getCurrentMetrics, hall, ite_false, if_false, reduceIte]
    have hle : snap.overall.totalErrors ≤ snap.overall.totalRequests := by
      rw [hte, htr]
      exact List.sum_le_sum (fun w hw => hinv w hw)
    have her : snap.overall.errorRate =
        round2 (if 0 < snap.overall.totalRequests
          then ((snap.overall.totalErrors : ℚ) / (snap.overall.totalRequests : ℚ)) * 100
          else 0) := by
      rw [hte, htr]
      simp only [snap, MetricsAggregator.getCurrentMetrics, hall, ite_false, if_false, reduceIte]
    refine ⟨hle, her, ?_, ?_⟩
    · rw [her]
      by_cases hr : 0 < snap.overall.totalRequests
      · rw [if_pos hr]
        have h0 : (0 : ℚ) ≤ ((snap.overall.totalErrors : ℚ) / (snap.overall.totalRequests : ℚ)) * 100 := by
          positivity
        calc (0 : ℚ) = round2 0 := round2_zero.symm
          _ ≤ _ := round2_le_round2 h0
      · rw [if_neg hr, round2_zero]
    · rw [her]
      by_cases hr : 0 < snap.overall.totalRequests
      · rw [if_pos hr]
        have hcast : (snap.overall.totalErrors : ℚ) ≤ (snap.overall.totalRequests : ℚ) := by
          exact_mod_cast hle
        have hpos : (0 : ℚ) < (snap.overall.totalRequests : ℚ) := by exact_mod_cast hr
        have hdiv : ((snap.overall.totalErrors : ℚ) / (snap.overall.totalRequests : ℚ)) ≤ 1 :=
          (div_le_one hpos).mpr hcast
        have h100 : ((snap.overall.totalErrors : ℚ) / (snap.overall.totalRequests : ℚ)) * 100 ≤ 100 := by
          linarith
        calc round2 _ ≤ round2 100 := round2_le_round2 h100
          _ = 100 := round2_hundred
      · rw [if_neg hr, round2_zero]
        norm_num

theorem lookupKey_updateAssoc {α : Type} (d : α) (k name : String) (f : α → α)
    (l : List (String × α)) :
    lookupKey name (updateAssoc d k f l) =
      if name = k then some (f ((lookupKey k l).getD d)) else lookupKey name l := by
  induction l with
  | nil =>
    by_cases h : name = k
    · subst h
      simp [updateAssoc, lookupKey]
    · simp [updateAssoc, lookupKey, h, Ne.symm h]
  | cons p rest ih =>
    obtain ⟨k', v⟩ := p
    by_cases hk : k' = k
    · subst hk
      by_cases h : name = k'
      · subst h
        simp [updateAssoc, lookupKey]
      · simp [updateAssoc, lookupKey, h, Ne.symm h]
    · by_cases h : k' = name
      · subst h
        simp [updateAssoc, lookupKey, hk, Ne.symm hk]
      · simp [updateAssoc, lookupKey, hk, h, ih]

/-- The per-service map of an accepted event. -/
theorem TimeWindow.addEvent_serviceStats (w : TimeWindow) (e : MetricsEvent)
    (hin : w.windowStart ≤ e.timestamp ∧ e.timestamp < w.windowEnd) :
    (w.addEvent e).1.serviceStats =
      (if truthyStr (some e.serviceName)
        then updateAssoc ScopeStat.empty e.serviceName (ScopeStat.addEvent e) w.serviceStats
        else w.serviceStats) := by
  unfold TimeWindow.addEvent
  simp only [hin, and_true, not_true_eq_false, if_false, ite_false, ite_true, not_true]
  split <;> split <;> simp_all

/-- The per-endpoint map of an accepted event. -/
theorem TimeWindow.addEvent_endpointStats (w : TimeWindow) (e : MetricsEvent)
    (hin : w.windowStart ≤ e.timestamp ∧ e.timestamp < w.windowEnd) :
    (w.addEvent e).1.endpointStats =
      (if truthyStr (some e.apiEndpoint)
        then updateAssoc ScopeStat.empty (e.serviceName ++ ":" ++ e.apiEndpoint)
          (ScopeStat.addEvent e) w.endpointStats
        else w.endpointStats) := by
  unfold TimeWindow.addEvent
  simp only [hin, and_true, not_true_eq_false, if_false, ite_false, ite_true, not_true]
  split <;> split <;> simp_all

/-- C10: an accepted event whose `response_time_ms` is exactly `0` counts the
request (and the error when `status_code ≥ 400`) but is treated as having no
latency: it is appended to no latency list and added to no latency sum, at the
overall, per-service and per-endpoint scopes alike, so `avg`/`p95`/`p99` are
unaffected. -/
theorem C10_zero_latency_counts_request_only (w : TimeWindow) (e : MetricsEvent)
    (hin : w.windowStart ≤ e.timestamp ∧ e.timestamp < w.windowEnd)
    (h0 : e.responseTimeMs = 0) :
    (w.addEvent e).2 = true ∧
    (w.addEvent e).1.requestCount = w.requestCount + 1 ∧
    (w.addEvent e).1.errorCount
      = w.errorCount + (if isErrorStatus e.statusCode then 1 else 0) ∧
    (w.addEvent e).1.responseTimes = w.responseTimes ∧
    (w.addEvent e).1.totalResponseTime = w.totalResponseTime ∧
    (w.addEvent e).1.getAvgResponseTime = w.getAvgResponseTime ∧
    (∀ p, (w.addEvent e).1.getPercentileResponseTime p = w.getPercentileResponseTime p) ∧
    (∀ name,
      ((lookupKey name (w.addEvent e).1.serviceStats).getD ScopeStat.empty).responseTimes
        = ((lookupKey name w.serviceStats).getD ScopeStat.empty).responseTimes) ∧
    (∀ name,
      ((lookupKey name (w.addEvent e).1.endpointStats).getD ScopeStat.empty).responseTimes
        = ((lookupKey name w.endpointStats).getD ScopeStat.empty).responseTimes) ∧
    (truthyStr (some e.serviceName) = true →
      ((lookupKey e.serviceName (w.addEvent e).1.serviceStats).getD ScopeStat.empty).requestCount
        = ((lookupKey e.serviceName w.serviceStats).getD ScopeStat.empty).requestCount + 1) := by
  have htr : truthyLatency e.responseTimeMs = false := by
    simp [truthyLatency, h0]
  obtain ⟨hok, hreq, herr, htot, hrts, -, -⟩ := TimeWindow.addEvent_accepted w e hin
  rw [htr] at htot hrts
  simp at htot hrts
  have hsvc := TimeWindow.addEvent_serviceStats w e hin
  have hep := TimeWindow.addEvent_endpointStats w e hin
  have hstat : ∀ s : ScopeStat, (ScopeStat.addEvent e s).responseTimes = s.responseTimes := by
    intro s
    simp [ScopeStat.addEvent, htr]
  refine ⟨hok, hreq, herr, hrts, htot, ?_, ?_, ?_, ?_, ?_⟩
  · unfold TimeWindow.getAvgResponseTime
    rw [hrts]
  · intro p
    unfold TimeWindow.getPercentileResponseTime
    rw [hrts]
  · intro name
    rw [hsvc]
    split
    · rw [lookupKey_updateAssoc]
      split

      · next hname => rw [hname]; simp [hstat]
      · rfl
    · rfl
  · intro name
    rw [hep]
    split
    · rw [lookupKey_updateAssoc]
      split
      · next hname => rw [hname]; simp [hstat]
      · rfl
    · rfl
  · intro htru
    rw [hsvc, if_pos htru, lookupKey_updateAssoc, if_pos rfl]
    simp [ScopeStat.addEvent]

/-- C10 witness: an accepted `status_code = 500` event with zero latency in a
fresh window counts one request and one error but leaves the latency sample
empty, also at the service scope. -/
theorem C10_zero_latency_witness :
    ((TimeWindow.new 0 5).addEvent evZeroRt).1.requestCount = 1 ∧
    ((TimeWindow.new 0 5).addEvent evZeroRt).1.errorCount = 1 ∧
    ((TimeWindow.new 0 5).addEvent evZeroRt).1.responseTimes = [] ∧
    ((lookupKey "s" ((TimeWindow.new 0 5).addEvent evZeroRt).1.serviceStats).getD
      ScopeStat.empty).responseTimes = [] := by
  obtain ⟨-, hreq, herr, hrts, -, -, -, hsvc, -, -⟩ :=
    C10_zero_latency_counts_request_only (TimeWindow.new 0 5) evZeroRt (by decide) rfl
  exact ⟨hreq, herr, hrts, (hsvc "s").trans rfl⟩


/-- C7 counterexample: an accepted event with `response_time_ms = -5` is *not*
excluded from latency math — the Python guard `if event.response_time_ms:` is
a truthiness test, so the negative value is appended to the sample list, added
to the latency sum, and shifts the average. -/
theorem C7_negative_latency_counterexample :
    ((TimeWindow.new 0 5).addEvent evNegRt).1.requestCount = 1 ∧
    ((TimeWindow.new 0 5).addEvent evNegRt).1.responseTimes = [-5] ∧
    ((TimeWindow.new 0 5).addEvent evNegRt).1.totalResponseTime = -5 ∧
    ((TimeWindow.new 0 5).addEvent evNegRt).1.getAvgResponseTime = -5 := by
  obtain ⟨-, hreq, -, htot, hrts, -, -⟩ :=
    TimeWindow.addEvent_accepted (TimeWindow.new 0 5) evNegRt (by decide)
  have htru : truthyLatency evNegRt.responseTimeMs = true := by
    norm_num [truthyLatency, evNegRt]
  rw [htru] at htot hrts
  simp only [if_true, ite_true] at htot hrts
  have hrts' : ((TimeWindow.new 0 5).addEvent evNegRt).1.responseTimes = [-5] := by
    rw [hrts]
    norm_num [TimeWindow.new, evNegRt]
  have htot' : ((TimeWindow.new 0 5).addEvent evNegRt).1.totalResponseTime = -5 := by
    rw [htot]
    norm_num [TimeWindow.new, evNegRt]
  refine ⟨hreq, hrts', htot', ?_⟩
  unfold TimeWindow.getAvgResponseTime
  rw [hrts']
  norm_num [meanRats]

/-- C7 amended: an accepted event is excluded from latency math only when its
`response_time_ms` equals `0` (Python falsiness); any non-zero value —
negative values included — increments the request count *and* enters both the
latency sum and the sample list. -/
theorem C7_nonzero_latency_included (w : TimeWindow) (e : MetricsEvent)
    (hin : w.windowStart ≤ e.timestamp ∧ e.timestamp < w.windowEnd)
    (hnz : e.responseTimeMs ≠ 0) :
    (w.addEvent e).2 = true ∧
    (w.addEvent e).1.requestCount = w.requestCount + 1 ∧
    (w.addEvent e).1.responseTimes = w.responseTimes ++ [e.responseTimeMs] ∧
    (w.addEvent e).1.totalResponseTime = w.totalResponseTime + e.responseTimeMs := by
  have htr : truthyLatency e.responseTimeMs = true := by
    simp [truthyLatency, hnz]
  obtain ⟨hok, hreq, -, htot, hrts, -, -⟩ := TimeWindow.addEvent_accepted w e hin
  rw [htr] at htot hrts
  simp at htot hrts
  exact ⟨hok, hreq, hrts, htot⟩

/-- C7 amended witness: the negative-latency event of the counterexample
instantiates the amended statement. -/
theorem C7_nonzero_latency_witness :
    ((TimeWindow.new 0 5).addEvent evNegRt).2 = true ∧
    ((TimeWindow.new 0 5).addEvent evNegRt).1.requestCount = 0 + 1 ∧
    ((TimeWindow.new 0 5).addEvent evNegRt).1.responseTimes = [] ++ [(-5 : ℚ)] ∧
    ((TimeWindow.new 0 5).addEvent evNegRt).1.totalResponseTime = 0 + (-5 : ℚ) :=
  C7_nonzero_latency_included (TimeWindow.new 0 5) evNegRt (by decide) (by norm_num [evNegRt])

/-- C6: during rule evaluation, when the metric is present and the condition
fails, an active alert under the same identity `(rule, service?, endpoint?)`
is resolved — status set to `resolved`, `resolved_at` stamped with the current
time, the entry removed from the active map, and the resolved alert handed to
every registered callback — while the state is unchanged when no such active
alert exists. -/
theorem C6_condition_false_resolves (st : AlertManagerState) (rule : AlertRule)
    (metrics : ScopeMetrics) (serviceName endpoint : Option String) (now : ℕ) (v : ℚ)
    (hv : metricValue metrics rule.metricType = some v)
    (hc : evaluateCondition v rule.operator rule.threshold = false) :
    (∀ a, lookupKey (generateAlertId rule serviceName endpoint) st.activeAlerts = some a →
      st.evaluateRule rule metrics serviceName endpoint now =
        { st with
          activeAlerts := removeKey (generateAlertId rule serviceName endpoint) st.activeAlerts,
          totalAlertsResolved := st.totalAlertsResolved + 1,
          notifications := st.notifications ++
            [{ a with status := AlertStatus.resolved, resolvedAt := some now }] }) ∧
    (lookupKey (generateAlertId rule serviceName endpoint) st.activeAlerts = none →
      st.evaluateRule rule metrics serviceName endpoint now = st) := by
  constructor
  · intro a ha
    unfold AlertManagerState.evaluateRule
    rw [hv]
    simp only [hc, Bool.false_eq_true, if_false, ite_false, ha, Option.isSome_some, if_true,
      ite_true]
    unfold AlertManagerState.resolveAlert
    rw [ha]
  · intro hnone
    unfold AlertManagerState.evaluateRule
    rw [hv]
    simp [hc, hnone]

/-- C6 witness: a quiet snapshot scope (`error_rate = 2`) resolves the active
`high_error_rate` alert held in `stWithActive`. -/
theorem C6_condition_false_resolves_witness :
    stWithActive.evaluateRule (defaultRules.getD 0 default) quietScope none none 9 =
      { stWithActive with
        activeAlerts := [],
        totalAlertsResolved := 1,
        notifications :=
          [{ sampleActiveAlert with status := AlertStatus.resolved, resolvedAt := some 9 }] } := by
  have h := (C6_condition_false_resolves stWithActive (defaultRules.getD 0 default) quietScope
    none none 9 2 rfl (by norm_num [evaluateCondition, defaultRules])).1 sampleActiveAlert rfl
  simpa [stWithActive, AlertManagerState.init, removeKey, generateAlertId, defaultRules,
    truthyStr] using h

/-- C8: when a batch flush of a non-empty pending buffer fails, the storage
manager increments `failed_writes` by exactly one, clears the buffer (the rows
are never retried), resets the batch timer, and leaves every other counter
unchanged; the transition is total, so no exception escapes to the caller. -/
theorem C8_flush_failure_clears_batch (st : StorageState) (now : ℕ)
    (h : st.pendingMetrics ≠ []) :
    st.executeBatchWrite false now =
      { st with
        pendingMetrics := [],
        lastBatchTime := now,
        stats := { st.stats with failedWrites := st.stats.failedWrites + 1 } } := by
  unfold StorageState.executeBatchWrite
  simp [h]

/-- C8 witness: a failing flush of a one-row buffer bumps only
`failed_writes` and empties the buffer. -/
theorem C8_flush_failure_witness :
    StorageState.executeBatchWrite ⟨[3], 0, ⟨5, 2, 4, 9, none⟩⟩ false 7 =
      ⟨[], 7, ⟨5, 2, 4, 10, none⟩⟩ :=
  C8_flush_failure_clears_batch ⟨[3], 0, ⟨5, 2, 4, 9, none⟩⟩ 7 (by decide)

/-- C9 counterexample: the snapshot dict embeds the `datetime.utcnow()` read
at emission in its `timestamp` field, so two consecutive `snapshot()` calls
whose clock readings differ are *not* equal as whole values. -/
theorem C9_timestamp_counterexample :
    ((MetricsAggregator.init 60 5).getCurrentMetrics 0).timestamp = 0 ∧
    ((MetricsAggregator.init 60 5).getCurrentMetrics 1).timestamp = 1 ∧
    (MetricsAggregator.init 60 5).getCurrentMetrics 0 ≠
      (MetricsAggregator.init 60 5).getCurrentMetrics 1 :=
  ⟨rfl, rfl, fun h => absurd (congrArg Snapshot.timestamp h) (by decide)⟩

/-- C9 amended: apart from the emission `timestamp`, `snapshot()` is a pure
function of the aggregator state — two calls with no intervening event agree
on every other field of every scope, whatever the two clock readings are. -/
theorem C9_snapshot_deterministic_except_timestamp (agg : MetricsAggregator) (t1 t2 : ℕ) :
    { agg.getCurrentMetrics t1 with timestamp := 0 }
      = { agg.getCurrentMetrics t2 with timestamp := 0 } := by
  by_cases h : agg.allWindows = [] <;>
    simp [MetricsAggregator.getCurrentMetrics, MetricsAggregator.emptyMetrics, h]

/-- C1: the window-eviction scenario evaluated on the code — after 50 events
at `t = 0` and one at `t = 65 s` (window 60 s, sub-window 5 s) the bucket that
started at `t = 0` is still live (eviction happens only through the
`deque(maxlen=12)` capacity, never by time), so the snapshot reports
`total_requests = 51`, not `1`, and the eviction-monotonicity bound
`b.start + sub > t − window` fails for it. -/
theorem C1_window_eviction_code_eval :
    aggEvict.allWindows.map TimeWindow.windowStart = [0, 65] ∧
    (aggEvict.getCurrentMetrics 66).overall.totalRequests = 51 ∧
    (aggEvict.getCurrentMetrics 66).overall.totalRequests ≠ 1 ∧
    ¬ (∀ w ∈ aggEvict.allWindows, (65 : ℤ) - 60 < (w.windowStart : ℤ) + 5) := by
  decide

/-- C3: the out-of-order scenario evaluated on the code — an event aligned to
an *older* bucket start than the newest live bucket is not dropped:
`_ensure_current_window` opens a fresh bucket at the older start and accepts
the event, so the live starts `[10, 0]` are not strictly increasing. -/
theorem C3_out_of_order_code_eval :
    aggOutOfOrder.allWindows.map TimeWindow.windowStart = [10, 0] ∧
    ¬ List.Pairwise (· < ·) (aggOutOfOrder.allWindows.map TimeWindow.windowStart) ∧
    aggOutOfOrder.totalEventsProcessed = 2 ∧
    aggOutOfOrder.currentWindow.map TimeWindow.requestCount = some 1 := by
  decide

/-- C2 counterexample: (i) in the mixed-errors scenario `error_rate = 5.00`
does not satisfy the strict `> 5.0` comparison, so `check_metrics` with the
built-in rules creates *no* alert at all (the state is unchanged); (ii) a rule
with no `service_name` and no `endpoint` is *not* evaluated against the
overall metrics only — fed a snapshot whose service entry exceeds the
threshold, the scopeless `high_error_rate` rule creates an alert whose
identity carries that service, not `(rule_id, null, null)`. -/
theorem C2_scope_counterexample :
    AlertManagerState.init.checkMetrics mixedSnapshot 0 = AlertManagerState.init ∧
    ((AlertManagerState.init.checkMetrics svcSnapshot 0).activeAlerts.map
        (fun p => (p.1, p.2.ruleId, p.2.serviceName, p.2.endpoint)))
      = [("high_error_rate:svcA", "high_error_rate", some "svcA", none)] := by
  decide

/-- C2 amended: an enabled rule with no `service_name` and no `endpoint` is
evaluated against the overall metrics *and* against every service and
endpoint entry of the snapshot, each alert carrying the scope it was evaluated
under; only the alert from the overall scope has identity
`(rule_id, null, null)`. With `error_rate = 6.00` (strictly above 5.0) the
mixed snapshot yields three `high` alerts — overall, service and endpoint
scoped — and a snapshot without service or endpoint entries yields exactly
the single alert `(high_error_rate, null, null)`. -/
theorem C2_unscoped_rule_fires_all_scopes :
    ((AlertManagerState.init.checkMetrics mixedSnapshot6 0).activeAlerts.map
        (fun p => (p.1, p.2.ruleId, p.2.serviceName, p.2.endpoint, p.2.severity)))
      = [("high_error_rate", "high_error_rate", none, none, AlertSeverity.high),
         ("high_error_rate:model-service", "high_error_rate",
           some "model-service", none, AlertSeverity.high),
         ("high_error_rate:model-service:/predict", "high_error_rate",
           some "model-service", some "/predict", AlertSeverity.high)] ∧
    ((AlertManagerState.init.checkMetrics overallOnlySnapshot6 0).activeAlerts.map
        (fun p => (p.1, p.2.ruleId, p.2.serviceName, p.2.endpoint, p.2.severity)))
      = [("high_error_rate", "high_error_rate", none, none, AlertSeverity.high)] ∧
    (AlertManagerState.init.checkMetrics overallOnlySnapshot6 0).totalAlertsTriggered = 1 := by
  refine ⟨by decide, by decide, by decide⟩

theorem length_insertSorted (x : ℚ) (l : List ℚ) :
    (insertSorted x l).length = l.length + 1 := by
  induction l with
  | nil => rfl
  | cons y ys ih =>
    unfold insertSorted
    split
    · simp [ih]
    · simp

theorem length_sortRats (l : List ℚ) : (sortRats l).length = l.length := by
  induction l with
  | nil => rfl
  | cons x xs ih => simp [sortRats, length_insertSorted, ih]

/-- The two percentile branch formulas coincide: clamping to the last element
when `floor_k + 1` overruns the list equals the spec formula (there `k` is an
exact integer), and otherwise `ceil_k = floor_k + 1` unless `k` is integral,
in which case the interpolation term vanishes on both sides. -/
theorem percentile_branches_eq (L : List ℚ) (k : ℚ)
    (hk0 : 0 ≤ k) (hkle : k ≤ (L.length : ℚ) - 1) (hn : 1 ≤ L.length) :
    (if L.length ≤ (⌊k⌋).toNat + 1 then L.getD (L.length - 1) 0
     else L.getD (⌊k⌋).toNat 0
       + (k - ((⌊k⌋).toNat : ℚ)) * (L.getD ((⌊k⌋).toNat + 1) 0 - L.getD (⌊k⌋).toNat 0))
    = L.getD (⌊k⌋).toNat 0 + (k - (⌊k⌋ : ℚ)) * (L.getD (⌈k⌉).toNat 0 - L.getD (⌊k⌋).toNat 0) := by
  have hf0 : 0 ≤ ⌊k⌋ := Int.floor_nonneg.mpr hk0
  have htofk : (((⌊k⌋).toNat : ℤ)) = ⌊k⌋ := Int.toNat_of_nonneg hf0
  have hfkq : (((⌊k⌋).toNat : ℚ)) = ((⌊k⌋ : ℤ) : ℚ) := by exact_mod_cast congrArg Int.cast htofk
  have hfle : ⌊k⌋ ≤ (L.length : ℤ) - 1 := by
    have hupper : ⌊((L.length : ℚ) - 1)⌋ = (L.length : ℤ) - 1 := by
      rw [show ((L.length : ℚ) - 1) = (((L.length : ℤ) - 1 : ℤ) : ℚ) by push_cast; ring]
      exact Int.floor_intCast _
    exact hupper ▸ Int.floor_le_floor hkle
  by_cases hcl : L.length ≤ (⌊k⌋).toNat + 1
  · rw [if_pos hcl]
    have hfle' : ((⌊k⌋).toNat : ℤ) ≤ (L.length : ℤ) - 1 := htofk ▸ hfle
    have hfk_eq : (⌊k⌋).toNat = L.length - 1 := by omega
    have hfloor_eq : ⌊k⌋ = (L.length : ℤ) - 1 := by omega
    have hkfloor : ((⌊k⌋ : ℤ) : ℚ) = (L.length : ℚ) - 1 := by
      rw [hfloor_eq]
      push_cast
      ring
    have hkeq : k = (L.length : ℚ) - 1 := by
      refine le_antisymm hkle ?_
      calc (L.length : ℚ) - 1 = ((⌊k⌋ : ℤ) : ℚ) := hkfloor.symm
        _ ≤ k := Int.floor_le k
    have hzero : k - ((⌊k⌋ : ℤ) : ℚ) = 0 := by
      rw [hkfloor, hkeq]
      ring
    rw [hzero, zero_mul, add_zero, hfk_eq]
  · rw [if_neg hcl]
    by_cases hint : ((⌊k⌋ : ℤ) : ℚ) = k
    · have hz1 : k - ((⌊k⌋).toNat : ℚ) = 0 := by
        rw [hfkq, hint]
        ring
      have hz2 : k - ((⌊k⌋ : ℤ) : ℚ) = 0 := by
        rw [hint]
        ring
      rw [hz1, hz2, zero_mul, zero_mul, add_zero]
    · have hlt : ((⌊k⌋ : ℤ) : ℚ) < k := lt_of_le_of_ne (Int.floor_le k) hint
      have hceil : ⌈k⌉ = ⌊k⌋ + 1 := by
        have h2 : ⌈k⌉ ≤ ⌊k⌋ + 1 := by
          apply Int.ceil_le.mpr
          push_cast
          exact le_of_lt (Int.lt_floor_add_one k)
        have h3 : ⌊k⌋ < ⌈k⌉ := Int.lt_ceil.mpr hlt
        omega
      have hceil_toNat : (⌈k⌉).toNat = (⌊k⌋).toNat + 1 := by omega
      rw [hceil_toNat, hfkq]

/-- C4: `_calculate_percentile` agrees with the spec's linear interpolation on
the sorted list for every non-empty sample and percentile in `[0, 100]`; it
returns `0` on the empty sample and the unique element on a singleton; on
`[10, 20, ..., 100]` it yields `p95 = 95.5` and `p99 = 99.1`. -/
theorem C4_percentile_linear_interpolation (l : List ℚ) (p : ℚ)
    (h0 : 0 ≤ p) (h1 : p ≤ 100) (hne : l ≠ []) :
    calculatePercentile l p = percentileSpec l p ∧
    calculatePercentile ([] : List ℚ) p = 0 ∧
    (∀ x : ℚ, calculatePercentile [x] p = x) ∧
    calculatePercentile [10, 20, 30, 40, 50, 60, 70, 80, 90, 100] 95 = 191 / 2 ∧
    calculatePercentile [10, 20, 30, 40, 50, 60, 70, 80, 90, 100] 99 = 991 / 10 := by
  refine ⟨?_, by simp [calculatePercentile], ?_, ?_, ?_⟩
  · have hlen : 1 ≤ (sortRats l).length := by
      rw [length_sortRats]
      exact List.length_pos.mpr hne
    have hcast : (1 : ℚ) ≤ ((sortRats l).length : ℚ) := by exact_mod_cast hlen
    have hk0 : 0 ≤ (((sortRats l).length : ℚ) - 1) * (p / 100) := by
      apply mul_nonneg
      · linarith
      · positivity
    have hkle : (((sortRats l).length : ℚ) - 1) * (p / 100) ≤ ((sortRats l).length : ℚ) - 1 := by
      apply mul_le_of_le_one_right
      · linarith
      · linarith
    unfold calculatePercentile percentileSpec
    rw [if_neg hne, if_neg hne]
    exact percentile_branches_eq (sortRats l) _ hk0 hkle hlen
  · intro x
    simp [calculatePercentile, sortRats, insertSorted]
  · with_unfolding_all decide
  · with_unfolding_all decide

/-- C4 witness: the interpolation identity instantiated on the ten-element
sample at `p = 95`. -/
theorem C4_percentile_witness :
    calculatePercentile [10, 20, 30, 40, 50, 60, 70, 80, 90, 100] 95
      = percentileSpec [10, 20, 30, 40, 50, 60, 70, 80, 90, 100] 95 ∧
    calculatePercentile [10, 20, 30, 40, 50, 60, 70, 80, 90, 100] 95 = 191 / 2 :=
  ⟨(C4_percentile_linear_interpolation [10, 20, 30, 40, 50, 60, 70, 80, 90, 100] 95
      (by norm_num) (by norm_num) (by decide)).1,
   (C4_percentile_linear_interpolation [10, 20, 30, 40, 50, 60, 70, 80, 90, 100] 95
      (by norm_num) (by norm_num) (by decide)).2.2.2.1⟩

end Monitor
